import Mathlib

/-!
Verification of the RinexData container (RINEX V2.10/V3.04 observation and
navigation data model) against its natural-language specification.

The development shallowly embeds the data model and operations of
src/RinexData.h.  Method bodies that live in the implementation file (not
present under src) are modelled from the specification; every such
definition carries a doc comment starting with the words Modelled from the
spec.  Constants, inline constructors and inline comparison operators are
translated directly from the header file.
-/

namespace Rinex

/-- RINEX versions known to the implementation (enum RINEXversion in
RinexData.h). -/
inductive RINEXversion where
  | V210
  | V304
  | VALL
  | VTBD
deriving DecidableEq, Repr

/-- RINEX header label identifiers (enum RINEXlabel in RinexData.h), main
catalog entries from VERSION to EOH. -/
inductive RINEXlabel where
  | VERSION
  | RUNBY
  | COMM
  | MRKNAME
  | MRKNUMBER
  | MRKTYPE
  | AGENCY
  | RECEIVER
  | ANTTYPE
  | APPXYZ
  | ANTHEN
  | ANTXYZ
  | ANTPHC
  | ANTBS
  | ANTZDAZI
  | ANTZDXYZ
  | COFM
  | WVLEN
  | TOBS
  | SYS
  | SIGU
  | INT
  | TOFO
  | TOLO
  | CLKOFFS
  | DCBS
  | PCVS
  | SCALE
  | PHSH
  | GLSLT
  | GLPHS
  | SATS
  | PRNOBS
  | IONA
  | IONB
  | IONC
  | DUTC
  | CORRT
  | GEOT
  | TIMC
  | LEAP
  | EOH
deriving DecidableEq, Repr

open RINEXversion RINEXlabel

/-- The RINEX version each label is applicable to, as documented for each
enumerator of RINEXlabel in RinexData.h (V210-only, V304-only, or VALL). -/
def labelVer : RINEXlabel → RINEXversion
  | VERSION => VALL
  | RUNBY => VALL
  | COMM => VALL
  | MRKNAME => VALL
  | MRKNUMBER => VALL
  | MRKTYPE => VALL
  | AGENCY => VALL
  | RECEIVER => VALL
  | ANTTYPE => VALL
  | APPXYZ => VALL
  | ANTHEN => VALL
  | ANTXYZ => V304
  | ANTPHC => V304
  | ANTBS => V304
  | ANTZDAZI => V304
  | ANTZDXYZ => V304
  | COFM => V304
  | WVLEN => V210
  | TOBS => V210
  | SYS => V304
  | SIGU => V304
  | INT => VALL
  | TOFO => VALL
  | TOLO => VALL
  | CLKOFFS => VALL
  | DCBS => V304
  | PCVS => V304
  | SCALE => V304
  | PHSH => V304
  | GLSLT => V304
  | GLPHS => V304
  | SATS => VALL
  | PRNOBS => VALL
  | IONA => V210
  | IONB => V210
  | IONC => V304
  | DUTC => V210
  | CORRT => V210
  | GEOT => V210
  | TIMC => V304
  | LEAP => VALL
  | EOH => VALL

/-- Payload shapes a header record can take (scalar strings and numbers,
fixed tuples, lists, per-system records), abstracting the setHdLnData
overload families declared in RinexData.h. -/
inductive HdShape where
  | sStr1
  | sStr2
  | sStr3
  | sNum1
  | sNum3
  | sInt1
  | sIntTuple
  | sWvln
  | sSysObs
  | sCorr
deriving DecidableEq, Repr

/-- A header record payload; each constructor corresponds to one payload
shape of the setHdLnData and getHdLnData overload families. -/
inductive HdPayload where
  | pStr1 (a : String)
  | pStr2 (a b : String)
  | pStr3 (a b c : String)
  | pNum1 (a : Rat)
  | pNum3 (a b c : Rat)
  | pInt1 (a : Int)
  | pIntTuple (a b c d : Int) (e : Char)
  | pWvln (l1 l2 : Int) (sats : List String)
  | pSysObs (sys : Char) (codes : List String)
  | pCorr (ct : RINEXlabel) (vals : List Rat)
deriving DecidableEq, Repr

/-- The shape of a given payload. -/
def shapeOf : HdPayload → HdShape
  | .pStr1 _ => .sStr1
  | .pStr2 _ _ => .sStr2
  | .pStr3 _ _ _ => .sStr3
  | .pNum1 _ => .sNum1
  | .pNum3 _ _ _ => .sNum3
  | .pInt1 _ => .sInt1
  | .pIntTuple _ _ _ _ _ => .sIntTuple
  | .pWvln _ _ _ => .sWvln
  | .pSysObs _ _ => .sSysObs
  | .pCorr _ _ => .sCorr

/-- Modelled from the spec: the shape declared for each header label; the
exact shape table lives in the implementation file, which is not present
under src, so the shapes are assigned from the setHdLnData overload each
label uses according to the specification (section 4.1). -/
def labelShape : RINEXlabel → HdShape
  | VERSION => .sStr1
  | RUNBY => .sStr3
  | COMM => .sStr1
  | MRKNAME => .sStr1
  | MRKNUMBER => .sStr1
  | MRKTYPE => .sStr1
  | AGENCY => .sStr2
  | RECEIVER => .sStr3
  | ANTTYPE => .sStr2
  | APPXYZ => .sNum3
  | ANTHEN => .sNum3
  | ANTXYZ => .sNum3
  | ANTPHC => .sNum3
  | ANTBS => .sNum3
  | ANTZDAZI => .sNum1
  | ANTZDXYZ => .sNum3
  | COFM => .sNum3
  | WVLEN => .sWvln
  | TOBS => .sSysObs
  | SYS => .sSysObs
  | SIGU => .sStr1
  | INT => .sNum1
  | TOFO => .sNum3
  | TOLO => .sNum3
  | CLKOFFS => .sInt1
  | DCBS => .sStr3
  | PCVS => .sStr3
  | SCALE => .sSysObs
  | PHSH => .sSysObs
  | GLSLT => .sIntTuple
  | GLPHS => .sCorr
  | SATS => .sInt1
  | PRNOBS => .sSysObs
  | IONA => .sCorr
  | IONB => .sCorr
  | IONC => .sCorr
  | DUTC => .sCorr
  | CORRT => .sCorr
  | GEOT => .sCorr
  | TIMC => .sCorr
  | LEAP => .sIntTuple
  | EOH => .sStr1

/-- Modelled from the spec: the labels that accumulate multiple sub-records
(repeated comments, wavelength factors, per-system observable-type lists,
per-system scale factors, per-system corrections) append a new list element
rather than overwrite a singleton (section 4.1). -/
def isListLbl : RINEXlabel → Bool
  | COMM => true
  | WVLEN => true
  | TOBS => true
  | SYS => true
  | DCBS => true
  | PCVS => true
  | SCALE => true
  | PHSH => true
  | GLSLT => true
  | GLPHS => true
  | PRNOBS => true
  | IONC => true
  | TIMC => true
  | _ => false

/-- Whether a label of declared version lv is applicable under container
version cv: applicable when declared for all versions or for exactly the
container version. -/
def verApplies (lv cv : RINEXversion) : Bool :=
  lv == VALL || lv == cv

/-- The mutable header store: the active output version plus per-label
record storage (a list of payloads; scalar labels hold at most one). -/
structure HeaderStore where
  version : RINEXversion
  store : RINEXlabel → List HdPayload

/-- A header store with no data, as after construction or clearHeaderData. -/
def emptyStore (v : RINEXversion) : HeaderStore :=
  { version := v, store := fun _ => [] }

/-- Modelled from the spec: setHdLnData validates the payload against the
label declared shape and the label applicability for the active version,
rejects mismatches without mutating state, otherwise stores the value and
marks hasData; list-like labels append a new element (section 4.1). -/
def setHdLn (st : HeaderStore) (l : RINEXlabel) (p : HdPayload) : Bool × HeaderStore :=
  if verApplies (labelVer l) st.version && (shapeOf p == labelShape l) then
    (true,
      { st with
        store := fun l2 =>
          if l2 = l then (if isListLbl l then st.store l ++ [p] else [p])
          else st.store l2 })
  else (false, st)

/-- Modelled from the spec: getHdLnData mirrors setHdLnData exactly, taking
an optional index for list-like labels, returning nothing when absent
(section 4.1). -/
def getHdLn (st : HeaderStore) (l : RINEXlabel) (idx : Nat) : Option HdPayload :=
  (st.store l).get? idx

/-- Whether the given label currently holds data. -/
def hasData (st : HeaderStore) (l : RINEXlabel) : Bool :=
  !(st.store l).isEmpty

/-- The maximum value for any observable to fit the RINEX fixed-point
output format, 9999999999.999 (RinexData.h line 73); written as the
reduced fraction 9999999999999 over 1000 so that comparisons evaluate. -/
def MAXOBSVAL : Rat := ⟨9999999999999, 1000, by norm_num, by norm_num⟩

/-- The minimum value for any observable to fit the RINEX fixed-point
output format, -999999999.999 (RinexData.h line 74); note one integer
digit fewer than MAXOBSVAL because the sign occupies a column; written as
the reduced fraction -999999999999 over 1000 so that comparisons
evaluate. -/
def MINOBSVAL : Rat := ⟨-999999999999, 1000, by norm_num, by norm_num⟩

/-- Observation codes in RINEX V3 having an equivalent in RINEX V2
(array v3obsTypes in RinexData.h, without its empty-string terminator). -/
def v3obsTypes : List String :=
  ["C1C", "L1C", "D1C", "S1C", "C1P", "C2P", "L2P", "D2P", "S2P"]

/-- The RINEX V2 equivalents, position-paired with v3obsTypes
(array v2obsTypes in RinexData.h, without its empty-string terminator). -/
def v2obsTypes : List String :=
  ["C1", "L1", "D1", "S1", "P1", "P2", "L2", "D2", "S2"]

/-- Translate a V3 observable code to its V2 equivalent through the
position-paired table, as the implementation does by scanning v3obsTypes
and taking the same index in v2obsTypes. -/
def translateToV2 (c : String) : Option String :=
  match v3obsTypes.findIdx? (fun x => x == c) with
  | none => none
  | some i => v2obsTypes.get? i

/-- Translate a V2 observable code to its V3 equivalent through the
position-paired table. -/
def translateToV3 (c : String) : Option String :=
  match v2obsTypes.findIdx? (fun x => x == c) with
  | none => none
  | some i => v3obsTypes.get? i

/-- Metadata to manage observables (struct OBSmeta in RinexData.h):
the observable code, whether it is selected, whether it is printable. -/
structure OBSmeta where
  id : String
  sel : Bool
  prt : Bool
deriving DecidableEq, Repr

/-- Data for each GNSS system that can provide data to the RINEX file
(struct GNSSsystem in RinexData.h). -/
structure GNSSsystem where
  system : Char
  selSystem : Bool
  obsTypes : List OBSmeta
  selSat : List Int
deriving DecidableEq, Repr

/-- The default observable set: every v3obsTypes code inserted initially
NOT SELECTED and NOT PRINTABLE (first loop of the GNSSsystem constructor,
RinexData.h line 522). -/
def defaultObsTypes : List OBSmeta :=
  v3obsTypes.map (fun c => { id := c, sel := false, prt := false })

/-- One step of the second loop of the GNSSsystem constructor
(RinexData.h lines 526 to 530): scan the accumulated observables for the
requested code; if found mark the first occurrence SELECTED, otherwise
append it as SELECTED and NOT PRINTABLE. -/
def addObsType : List OBSmeta → String → List OBSmeta
  | [], c => [{ id := c, sel := true, prt := false }]
  | m :: rest, c =>
      if m.id = c then { m with sel := true } :: rest
      else m :: addObsType rest c

/-- The GNSSsystem constructor (RinexData.h lines 518 to 531): the system
letter, the selected flag set to true, the default observable set overlaid
with the requested codes, and the selected-satellite list left empty. -/
def mkGNSSsystem (sys : Char) (obsT : List String) : GNSSsystem :=
  { system := sys
    selSystem := true
    obsTypes := obsT.foldl addObsType defaultObsTypes
    selSat := [] }

/-- Storage for a satellite observable in an epoch (struct SatObsData in
RinexData.h): system index in the systems vector, satellite PRN,
observable type index in the obsTypes vector of that system, value, loss
of lock, and signal strength. -/
structure SatObsData where
  sysIndex : Nat
  satellite : Int
  obsTypeIndex : Nat
  obsValue : Rat
  lossOfLock : Int
  strength : Int
deriving DecidableEq, Repr

/-- The ordering and deduplication key of an observation sample. -/
def SatObsData.key (o : SatObsData) : Nat × Int × Nat :=
  (o.sysIndex, o.satellite, o.obsTypeIndex)

/-- The comparison operator of SatObsData, translated literally from
RinexData.h lines 713 to 722; note the non-strict comparison on the last
component obsTypeIndex. -/
def SatObsData.lt (a b : SatObsData) : Bool :=
  if a.sysIndex < b.sysIndex then true
  else if b.sysIndex < a.sysIndex then false
  else if a.satellite < b.satellite then true
  else if b.satellite < a.satellite then false
  else if a.obsTypeIndex ≤ b.obsTypeIndex then true
  else false

/-- Strict lexicographic ascending order on observation keys, written as a
boolean so the comparison can be evaluated. -/
def keyLexLtb (k1 k2 : Nat × Int × Nat) : Bool :=
  decide (k1.1 < k2.1) ||
    (decide (k1.1 = k2.1) &&
      (decide (k1.2.1 < k2.2.1) ||
        (decide (k1.2.1 = k2.2.1) && decide (k1.2.2 < k2.2.2))))

/-- The index of the system with the given letter in the systems vector
(method systemIndex: a linear scan). -/
def sysIndexOf : List GNSSsystem → Char → Option Nat
  | [], _ => none
  | g :: rest, s =>
      if g.system = s then some 0
      else (sysIndexOf rest s).map (fun n => n + 1)

/-- The index of the observable with the given code in an obsTypes vector
(linear scan over observable identifiers). -/
def obsIdxOf : List OBSmeta → String → Option Nat
  | [], _ => none
  | m :: rest, c =>
      if m.id = c then some 0
      else (obsIdxOf rest c).map (fun n => n + 1)

/-- Resolve a system letter and an observable code to the pair of indices
(system index, observable type index); none when the system is unknown or
the observable is unknown to that system. -/
def resolveIdx (systems : List GNSSsystem) (sysId : Char) (obsType : String) :
    Option (Nat × Nat) :=
  match sysIndexOf systems sysId with
  | none => none
  | some i =>
      match systems.get? i with
      | none => none
      | some g =>
          match obsIdxOf g.obsTypes obsType with
          | none => none
          | some j => some (i, j)

/-- Modelled from the spec: saveObsData appends a sample to the epoch
buffer after validating a known system, a satellite in the range 1 to 99,
an observable known to that system, a value inside the fixed-point output
range given by the source constants MINOBSVAL and MAXOBSVAL, and the
absence of the same key tuple in the current epoch; any failed validation
returns false and leaves the buffer unchanged (section 4.3; the method
body is in the implementation file, which is not present under src). -/
def saveObsData (systems : List GNSSsystem) (epochObs : List SatObsData)
    (sysId : Char) (sat : Int) (obsType : String) (value : Rat)
    (lol strg : Int) : Bool × List SatObsData :=
  match resolveIdx systems sysId obsType with
  | none => (false, epochObs)
  | some (i, j) =>
      if sat < 1 then (false, epochObs)
      else if 99 < sat then (false, epochObs)
      else if value < MINOBSVAL then (false, epochObs)
      else if MAXOBSVAL < value then (false, epochObs)
      else if epochObs.any (fun o => decide (o.key = (i, sat, j))) then
        (false, epochObs)
      else
        (true, epochObs ++
          [{ sysIndex := i, satellite := sat, obsTypeIndex := j,
             obsValue := value, lossOfLock := lol, strength := strg }])

/-- One ingest request for saveObsData, used to state properties of
sequences of calls. -/
structure ObsReq where
  sysId : Char
  sat : Int
  obsType : String
  value : Rat
  lol : Int
  strg : Int
deriving DecidableEq, Repr

/-- The epoch buffer after one saveObsData call (the returned flag
dropped). -/
def saveStep (systems : List GNSSsystem) (obs : List SatObsData)
    (r : ObsReq) : List SatObsData :=
  (saveObsData systems obs r.sysId r.sat r.obsType r.value r.lol r.strg).2

/-- Maximum number of lines in the RINEX broadcast orbit array
(BO_MAXLINS in RinexData.h line 39). -/
def BO_MAXLINS : Nat := 8

/-- Maximum number of columns in the RINEX broadcast orbit array
(BO_MAXCOLS in RinexData.h line 40). -/
def BO_MAXCOLS : Nat := 4

/-- Broadcast orbit lines printed for each GPS satellite epoch
(BO_MAXLINS_GPS in RinexData.h line 48). -/
def BO_MAXLINS_GPS : Nat := 8

/-- Broadcast orbit lines printed for each Glonass satellite epoch
(BO_MAXLINS_GLO in RinexData.h line 51). -/
def BO_MAXLINS_GLO : Nat := 4

/-- Broadcast orbit lines printed for each Galileo satellite epoch
(BO_MAXLINS_GAL in RinexData.h line 54). -/
def BO_MAXLINS_GAL : Nat := 8

/-- Broadcast orbit lines printed for each Beidou satellite epoch
(BO_MAXLINS_BDS in RinexData.h line 57). -/
def BO_MAXLINS_BDS : Nat := 8

/-- Broadcast orbit lines printed for each SBAS satellite epoch
(BO_MAXLINS_SBAS in RinexData.h line 60). -/
def BO_MAXLINS_SBAS : Nat := 4

/-- Broadcast orbit lines printed for each QZSS satellite epoch
(BO_MAXLINS_QZSS in RinexData.h line 63). -/
def BO_MAXLINS_QZSS : Nat := 4

/-- Modelled from the spec: the navigation codec dispatches on the system
letter to the per-system fixed broadcast-orbit line count given by the
source constants (section 4.4; the dispatch itself is in the
implementation file, which is not present under src). -/
def navLinesOf : Char → Nat
  | 'G' => BO_MAXLINS_GPS
  | 'R' => BO_MAXLINS_GLO
  | 'E' => BO_MAXLINS_GAL
  | 'C' => BO_MAXLINS_BDS
  | 'S' => BO_MAXLINS_SBAS
  | 'J' => BO_MAXLINS_QZSS
  | _ => 0

/-- Storage for navigation data of a GNSS satellite (struct SatNavData in
RinexData.h): time tag, system letter, satellite PRN, broadcast orbit. -/
structure SatNavData where
  navTimeTag : Rat
  systemId : Char
  satellite : Int
  broadcastOrbit : List (List Rat)
deriving DecidableEq, Repr

/-- Modelled from the spec: whether an observation sample is kept by the
filter engine: its system selected, its satellite inside a non-empty
selected-satellite list (empty means all accepted), its observable
selected, and, when removeNotPrt holds, also printable (section 4.5). -/
def keepObs (systems : List GNSSsystem) (removeNotPrt : Bool)
    (o : SatObsData) : Bool :=
  match systems.get? o.sysIndex with
  | none => false
  | some g =>
      g.selSystem && (g.selSat.isEmpty || g.selSat.contains o.satellite) &&
        (match g.obsTypes.get? o.obsTypeIndex with
         | none => false
         | some m => m.sel && (!removeNotPrt || m.prt))

/-- Modelled from the spec: filterObsData removes in place every buffered
sample not kept by the selection criteria (section 4.5; the method body is
in the implementation file, which is not present under src). -/
def filterObsData (systems : List GNSSsystem) (epochObs : List SatObsData)
    (removeNotPrt : Bool) : List SatObsData :=
  epochObs.filter (keepObs systems removeNotPrt)

/-- Modelled from the spec: whether a navigation record is kept by the
filter engine: its system selected and its satellite inside a non-empty
selected-satellite list (section 4.5). -/
def keepNav (systems : List GNSSsystem) (n : SatNavData) : Bool :=
  match systems.find? (fun g => g.system == n.systemId) with
  | none => false
  | some g =>
      g.selSystem && (g.selSat.isEmpty || g.selSat.contains n.satellite)

/-- Modelled from the spec: filterNavData removes in place every buffered
navigation record not kept by the selection criteria (section 4.5). -/
def filterNavData (systems : List GNSSsystem) (epochNav : List SatNavData) :
    List SatNavData :=
  epochNav.filter (keepNav systems)

/-- Modelled from the spec: whether a satellite of a given system passes
filtering: the system selected, and the satellite a member of the
selected-satellite list when that list is non-empty (sections 3 and 4.5). -/
def satPasses (g : GNSSsystem) (sat : Int) : Bool :=
  g.selSystem && (g.selSat.isEmpty || g.selSat.contains sat)

/-- A one-system registry used by concrete evaluations: a GPS system whose
requested observables are C1C only. -/
def demoSystems : List GNSSsystem :=
  [mkGNSSsystem 'G' ["C1C"]]

/-- A concrete epoch buffer holding one sample with key (0, 5, 0), used by
concrete evaluations. -/
def demoObs : List SatObsData :=
  [{ sysIndex := 0, satellite := 5, obsTypeIndex := 0, obsValue := 20000000,
     lossOfLock := 0, strength := 7 }]

/-- A concrete ingest request used by concrete evaluations. -/
def demoReq : ObsReq :=
  { sysId := 'G', sat := 5, obsType := "C1C", value := 20000000, lol := 0,
    strg := 7 }

/-- The fraction defining MAXOBSVAL equals the decimal 9999999999.999 of
RinexData.h line 73. -/
theorem MAXOBSVAL_eq_decimal : MAXOBSVAL = 9999999999.999 := by
  rw [MAXOBSVAL, Rat.mk'_eq_divInt]
  rw [Rat.divInt_eq_div]
  norm_num

/-- The fraction defining MINOBSVAL equals the decimal -999999999.999 of
RinexData.h line 74. -/
theorem MINOBSVAL_eq_decimal : MINOBSVAL = -999999999.999 := by
  rw [MINOBSVAL, Rat.mk'_eq_divInt]
  rw [Rat.divInt_eq_div]
  norm_num

/-- Claim C3 (code bug): the comparison operator of SatObsData is NOT a
strict lexicographic order on the key tuple: because the source compares
the last component with a non-strict test, any sample compares strictly
below itself, while the strict lexicographic order is irreflexive. -/
theorem satObsData_lt_not_strict :
    (∀ a : SatObsData, SatObsData.lt a a = true)
    ∧ ∀ k : Nat × Int × Nat, keyLexLtb k k = false := by
  constructor
  · intro a
    simp [SatObsData.lt]
  · intro k
    simp [keyLexLtb]

/-- Claim C7: the navigation codec per-system fixed broadcast-orbit shapes:
GPS, Galileo and Beidou records occupy 8 broadcast-orbit lines, GLONASS,
SBAS and QZSS records occupy 4 lines, and each line holds 4 fields. -/
theorem navLines_fixed_shapes :
    navLinesOf 'G' = 8 ∧ navLinesOf 'E' = 8 ∧ navLinesOf 'C' = 8
    ∧ navLinesOf 'R' = 4 ∧ navLinesOf 'S' = 4 ∧ navLinesOf 'J' = 4
    ∧ BO_MAXCOLS = 4 := by
  decide

/-- Claim C8: the V3-to-V2 observable-code translation table is
position-paired and bidirectional: both code lists have the same length,
every V3 code of the table translates to a V2 code that translates back to
it, and symmetrically from every V2 code of the table. -/
theorem v3v2_table_roundtrip :
    v3obsTypes.length = v2obsTypes.length
    ∧ (v3obsTypes.all fun c => (translateToV2 c).bind translateToV3 == some c) = true
    ∧ (v2obsTypes.all fun c => (translateToV3 c).bind translateToV2 == some c) = true := by
  decide

/-- Claim C9: for any buffered observation or navigation data and fixed,
unchanged filtering criteria, applying filterObsData, respectively
filterNavData, twice yields exactly the same buffer as applying it once. -/
theorem filter_idem (systems : List GNSSsystem) (obs : List SatObsData)
    (nav : List SatNavData) (removeNotPrt : Bool) :
    filterObsData systems (filterObsData systems obs removeNotPrt) removeNotPrt
        = filterObsData systems obs removeNotPrt
    ∧ filterNavData systems (filterNavData systems nav)
        = filterNavData systems nav := by
  constructor
  · simp [filterObsData, List.filter_filter]
  · simp [filterNavData, List.filter_filter]

/-- Claim C10: every GNSS system is created with its selected flag true and
an empty selected-satellite list, so immediately after creation, and before
any setFilter call, the system and all of its satellites pass filtering. -/
theorem mkGNSSsystem_initially_selected (sysId : Char) (obsT : List String)
    (sat : Int) :
    (mkGNSSsystem sysId obsT).selSystem = true
    ∧ (mkGNSSsystem sysId obsT).selSat = []
    ∧ satPasses (mkGNSSsystem sysId obsT) sat = true :=
  ⟨rfl, rfl, rfl⟩

/-- Claim C5: a label not applicable to the configured RINEX version makes
setHdLnData return false and leave the container state unchanged. -/
theorem setHdLn_version_gate (st : HeaderStore) (l : RINEXlabel)
    (p : HdPayload) (h1 : labelVer l ≠ RINEXversion.VALL)
    (h2 : labelVer l ≠ st.version) :
    setHdLn st l p = (false, st) := by
  have hv : verApplies (labelVer l) st.version = false := by
    simp [verApplies, h1, h2]
  simp [setHdLn, hv]

/-- Claim C5 witness: a V3-only label (ANTXYZ) is rejected by a
V210-configured container, and a V2-only label (WVLEN) is rejected by a
V304-configured container, leaving both containers unchanged. -/
theorem setHdLn_version_gate_witness :
    setHdLn (emptyStore RINEXversion.V210) RINEXlabel.ANTXYZ
        (HdPayload.pNum3 0 0 0) = (false, emptyStore RINEXversion.V210)
    ∧ setHdLn (emptyStore RINEXversion.V304) RINEXlabel.WVLEN
        (HdPayload.pWvln 1 1 []) = (false, emptyStore RINEXversion.V304) :=
  ⟨setHdLn_version_gate _ _ _ (by decide) (by decide),
   setHdLn_version_gate _ _ _ (by decide) (by decide)⟩

/-- Claim C4: for every label and payload valid for it under the active
version, setHdLnData succeeds, and getHdLnData for the same label at the
matching index (the fresh element for list-like labels, index 0 otherwise)
returns the identical stored payload, with the hasData flag set. -/
theorem setHdLn_getHdLn_roundtrip (st : HeaderStore) (l : RINEXlabel)
    (p : HdPayload) (h : (setHdLn st l p).1 = true) :
    getHdLn (setHdLn st l p).2 l
        (if isListLbl l then (st.store l).length else 0) = some p
    ∧ hasData (setHdLn st l p).2 l = true := by
  unfold setHdLn at h ⊢
  split at h
  case isTrue hc =>
    rw [if_pos hc]
    constructor
    · unfold getHdLn
      by_cases hl : isListLbl l
      · simp [hl, List.get?_eq_getElem?, List.getElem?_concat_length]
      · simp [hl]
    · unfold hasData
      by_cases hl : isListLbl l <;> simp [hl]
  case isFalse hc =>
    simp at h

/-- Claim C4 witness: storing the marker name TEST in a V304 container and
reading it back returns the identical payload. -/
theorem setHdLn_getHdLn_roundtrip_witness :
    getHdLn (setHdLn (emptyStore RINEXversion.V304) RINEXlabel.MRKNAME
        (HdPayload.pStr1 "TEST")).2 RINEXlabel.MRKNAME 0
      = some (HdPayload.pStr1 "TEST") :=
  (setHdLn_getHdLn_roundtrip _ _ _ (by decide)).1

/-- Claim C1 (amended): for every saveObsData call with a known system, a
satellite in the range 1 to 99, an observable known to that system, and no
duplicate key in the current epoch, the sample is accepted exactly when
its value lies in the asymmetric source range from MINOBSVAL to
MAXOBSVAL. -/
theorem saveObsData_value_range (systems : List GNSSsystem)
    (epochObs : List SatObsData) (sysId : Char) (sat : Int)
    (obsType : String) (value : Rat) (lol strg : Int) (i j : Nat)
    (hres : resolveIdx systems sysId obsType = some (i, j))
    (h1 : 1 ≤ sat) (h2 : sat ≤ 99)
    (hdup : (epochObs.any fun o => decide (o.key = (i, sat, j))) = false) :
    (saveObsData systems epochObs sysId sat obsType value lol strg).1 = true
      ↔ MINOBSVAL ≤ value ∧ value ≤ MAXOBSVAL := by
  unfold saveObsData
  rw [hres]
  dsimp only
  rw [if_neg (not_lt.mpr h1), if_neg (not_lt.mpr h2)]
  by_cases hlo : value < MINOBSVAL
  · rw [if_pos hlo]
    simp only [Bool.false_eq_true, false_iff, not_and]
    intro hc
    exact absurd hlo (not_lt.mpr hc)
  · rw [if_neg hlo]
    by_cases hhi : MAXOBSVAL < value
    · rw [if_pos hhi]
      simp only [Bool.false_eq_true, false_iff, not_and]
      intro _ hc
      exact absurd hhi (not_lt.mpr hc)
    · rw [if_neg hhi, if_neg (by simp [hdup])]
      simp only [true_iff]
      exact ⟨le_of_not_lt hlo, le_of_not_lt hhi⟩

/-- Claim C1 witness: with one GPS system knowing C1C, the boundary value
MAXOBSVAL, which equals 9999999999.999, is accepted and the value
10000000000 is rejected. -/
theorem saveObsData_value_range_witness :
    (saveObsData demoSystems [] 'G' 5 "C1C" MAXOBSVAL 0 7).1 = true
    ∧ (saveObsData demoSystems [] 'G' 5 "C1C" (10000000000 : Rat) 0 7).1
        = false := by
  constructor
  · exact (saveObsData_value_range demoSystems [] 'G' 5 "C1C" MAXOBSVAL 0 7
      0 0 (by decide) (by decide) (by decide) (by decide)).mpr (by decide)
  · have h := saveObsData_value_range demoSystems [] 'G' 5 "C1C"
      (10000000000 : Rat) 0 7 0 0 (by decide) (by decide) (by decide)
      (by decide)
    by_cases hr : (saveObsData demoSystems [] 'G' 5 "C1C"
        (10000000000 : Rat) 0 7).1 = true
    · exact absurd (h.mp hr).2 (by decide)
    · simpa using hr

/-- Claim C1 counterexample: the value -2000000000 lies within plus or
minus 9999999999.999 yet the sample is rejected, because the source lower
bound MINOBSVAL is -999999999.999, not -9999999999.999; so acceptance is
not equivalent to lying within plus or minus 9999999999.999. -/
theorem saveObsData_asym_counterexample :
    -MAXOBSVAL ≤ (-2000000000 : Rat)
    ∧ (-2000000000 : Rat) ≤ MAXOBSVAL
    ∧ (saveObsData demoSystems [] 'G' 5 "C1C" (-2000000000 : Rat) 0 7).1
        = false :=
  ⟨by decide, by decide, by decide⟩

/-- If an observation ingest succeeds or fails, the resulting buffer keeps
pairwise distinct keys when it had them before the call. -/
theorem saveObsData_preserves_keys (systems : List GNSSsystem)
    (obs : List SatObsData) (sysId : Char) (sat : Int) (obsType : String)
    (value : Rat) (lol strg : Int)
    (h : obs.Pairwise fun a b => a.key ≠ b.key) :
    ((saveObsData systems obs sysId sat obsType value lol strg).2.Pairwise
      fun a b => a.key ≠ b.key) := by
  unfold saveObsData
  cases hres : resolveIdx systems sysId obsType with
  | none => exact h
  | some ij =>
    obtain ⟨i, j⟩ := ij
    dsimp only
    by_cases hs1 : sat < 1
    · rw [if_pos hs1]; exact h
    rw [if_neg hs1]
    by_cases hs2 : 99 < sat
    · rw [if_pos hs2]; exact h
    rw [if_neg hs2]
    by_cases hlo : value < MINOBSVAL
    · rw [if_pos hlo]; exact h
    rw [if_neg hlo]
    by_cases hhi : MAXOBSVAL < value
    · rw [if_pos hhi]; exact h
    rw [if_neg hhi]
    by_cases hdup : (obs.any fun o => decide (o.key = (i, sat, j))) = true
    · rw [if_pos hdup]; exact h
    · rw [if_neg hdup]
      rw [List.pairwise_append]
      refine ⟨h, List.pairwise_singleton _ _, ?_⟩
      intro a ha b hb
      have hb2 : b = ⟨i, sat, j, value, lol, strg⟩ := by
        simpa using hb
      subst hb2
      intro hkey
      apply hdup
      rw [List.any_eq_true]
      exact ⟨a, ha, by simpa [SatObsData.key] using hkey⟩

/-- A sequence of ingests starting from a buffer with pairwise distinct
keys leaves the keys pairwise distinct. -/
theorem foldl_saveStep_keys (systems : List GNSSsystem) (reqs : List ObsReq) :
    ∀ obs : List SatObsData, (obs.Pairwise fun a b => a.key ≠ b.key) →
      ((reqs.foldl (saveStep systems) obs).Pairwise
        fun a b => a.key ≠ b.key) := by
  induction reqs with
  | nil => intro obs h; exact h
  | cons r rest ih =>
      intro obs h
      rw [List.foldl_cons]
      exact ih _ (saveObsData_preserves_keys _ _ _ _ _ _ _ _ h)

/-- Claim C2: after any sequence of saveObsData calls on a buffer with
pairwise distinct keys, no two buffered samples share the key tuple of
system index, satellite and observable type index; and an ingest whose
resolved key collides with a buffered sample returns false and leaves the
buffer unchanged. -/
theorem saveObsData_no_duplicate_keys :
    (∀ (systems : List GNSSsystem) (reqs : List ObsReq)
        (obs : List SatObsData),
        (obs.Pairwise fun a b => a.key ≠ b.key) →
        ((reqs.foldl (saveStep systems) obs).Pairwise
          fun a b => a.key ≠ b.key))
    ∧ ∀ (systems : List GNSSsystem) (obs : List SatObsData) (sysId : Char)
        (sat : Int) (obsType : String) (value : Rat) (lol strg : Int)
        (i j : Nat),
        resolveIdx systems sysId obsType = some (i, j) →
        (obs.any fun o => decide (o.key = (i, sat, j))) = true →
        saveObsData systems obs sysId sat obsType value lol strg
          = (false, obs) := by
  constructor
  · intro systems reqs obs h
    exact foldl_saveStep_keys systems reqs obs h
  · intro systems obs sysId sat obsType value lol strg i j hres hdup
    unfold saveObsData
    rw [hres]
    dsimp only
    by_cases hs1 : sat < 1
    · rw [if_pos hs1]
    · rw [if_neg hs1]
      by_cases hs2 : 99 < sat
      · rw [if_pos hs2]
      · rw [if_neg hs2]
        by_cases hlo : value < MINOBSVAL
        · rw [if_pos hlo]
        · rw [if_neg hlo]
          by_cases hhi : MAXOBSVAL < value
          · rw [if_pos hhi]
          · rw [if_neg hhi, if_pos hdup]

/-- Claim C2 witness: ingesting the same request twice from an empty buffer
leaves the buffered keys pairwise distinct, and an ingest colliding with
the buffered key tuple (0, 5, 0) returns false and leaves the buffer
unchanged. -/
theorem saveObsData_no_duplicate_keys_witness :
    (([demoReq, demoReq].foldl (saveStep demoSystems) []).Pairwise
        fun a b => a.key ≠ b.key)
    ∧ saveObsData demoSystems demoObs 'G' 5 "C1C" 1 0 7 = (false, demoObs) :=
  ⟨saveObsData_no_duplicate_keys.1 demoSystems [demoReq, demoReq] []
      List.Pairwise.nil,
   saveObsData_no_duplicate_keys.2 demoSystems demoObs 'G' 5 "C1C" 1 0 7 0 0
      (by decide) (by decide)⟩

/-- The identifiers after one overlay step: unchanged when the code was
already present, otherwise the code is appended at the end. -/
theorem addObsType_ids (l : List OBSmeta) (c : String) :
    (addObsType l c).map OBSmeta.id =
      if c ∈ l.map OBSmeta.id then l.map OBSmeta.id
      else l.map OBSmeta.id ++ [c] := by
  induction l with
  | nil => simp [addObsType]
  | cons m rest ih =>
      by_cases hm : m.id = c
      · simp [addObsType, hm]
      · rw [addObsType, if_neg hm, List.map_cons, ih, List.map_cons]
        by_cases hc : c ∈ rest.map OBSmeta.id
        · rw [if_pos hc, if_pos (by simp [hc])]
        · rw [if_neg hc, if_neg (by simp [List.mem_cons, hc, Ne.symm hm])]
          simp

/-- One overlay step preserves the uniqueness of observable codes. -/
theorem addObsType_ids_nodup (l : List OBSmeta) (c : String)
    (h : (l.map OBSmeta.id).Nodup) :
    ((addObsType l c).map OBSmeta.id).Nodup := by
  rw [addObsType_ids]
  by_cases hc : c ∈ l.map OBSmeta.id
  · simpa [hc] using h
  · rw [if_neg hc]
    exact h.append (List.nodup_singleton c)
      (fun x hx hxc => hc ((List.mem_singleton.mp hxc) ▸ hx))

/-- One overlay step marks exactly the requested code additionally
selected: afterwards an entry is selected exactly when its code was
already selected or equals the requested code, provided codes are
unique. -/
theorem addObsType_sel_iff (c : String) :
    ∀ (l : List OBSmeta) (done : List String),
      (l.map OBSmeta.id).Nodup →
      (∀ m ∈ l, (m.sel = true ↔ m.id ∈ done)) →
      ∀ m ∈ addObsType l c, (m.sel = true ↔ m.id ∈ done ∨ m.id = c) := by
  intro l
  induction l with
  | nil =>
      intro done _ _ m hm
      rw [addObsType] at hm
      have hm2 : m = ⟨c, true, false⟩ := by simpa using hm
      subst hm2
      simp
  | cons hd tl ih =>
      intro done hnd hsel m hm
      rw [List.map_cons, List.nodup_cons] at hnd
      obtain ⟨hhd, htl⟩ := hnd
      by_cases hc : hd.id = c
      · rw [addObsType, if_pos hc] at hm
        rcases List.mem_cons.mp hm with hm1 | hm2
        · subst hm1
          simp [hc]
        · have hiff := hsel m (List.mem_cons_of_mem _ hm2)
          have hne : m.id ≠ c := by
            intro he
            exact hhd (by rw [hc, ← he]; exact List.mem_map_of_mem _ hm2)
          simp [hiff, hne]
      · rw [addObsType, if_neg hc] at hm
        rcases List.mem_cons.mp hm with hm1 | hm2
        · subst hm1
          have hiff := hsel m (List.mem_cons_self _ _)
          simp [hiff, hc]
        · exact ih done htl
            (fun x hx => hsel x (List.mem_cons_of_mem _ hx)) m hm2

/-- After overlaying a whole request list, an entry is selected exactly
when its code was already selected or appears among the requested codes,
provided codes are unique. -/
theorem foldl_sel_iff (obsT : List String) :
    ∀ (l : List OBSmeta) (done : List String),
      (l.map OBSmeta.id).Nodup →
      (∀ m ∈ l, (m.sel = true ↔ m.id ∈ done)) →
      ∀ m ∈ obsT.foldl addObsType l,
        (m.sel = true ↔ m.id ∈ done ∨ m.id ∈ obsT) := by
  induction obsT with
  | nil =>
      intro l done _ hsel m hm
      rw [List.foldl_nil] at hm
      simpa using hsel m hm
  | cons c rest ih =>
      intro l done hnd hsel m hm
      rw [List.foldl_cons] at hm
      have hinner : ∀ m2 ∈ addObsType l c,
          (m2.sel = true ↔ m2.id ∈ done ++ [c]) := by
        intro m2 hm2
        have := addObsType_sel_iff c l done hnd hsel m2 hm2
        simpa [List.mem_append] using this
      have h2 := ih (addObsType l c) (done ++ [c])
        (addObsType_ids_nodup l c hnd) hinner m hm
      rw [h2]
      simp [List.mem_append, List.mem_cons]
      tauto

/-- The code of every entry after one overlay step is an already present
code or the requested code. -/
theorem addObsType_id_origin (l : List OBSmeta) (c : String) :
    ∀ m ∈ addObsType l c, m.id ∈ l.map OBSmeta.id ∨ m.id = c := by
  intro m hm
  have h1 : m.id ∈ (addObsType l c).map OBSmeta.id :=
    List.mem_map_of_mem _ hm
  rw [addObsType_ids] at h1
  by_cases hc : c ∈ l.map OBSmeta.id
  · rw [if_pos hc] at h1
    exact Or.inl h1
  · rw [if_neg hc] at h1
    rcases List.mem_append.mp h1 with h | h
    · exact Or.inl h
    · exact Or.inr (by simpa using h)

/-- The code of every entry after overlaying a request list is an already
present code or a requested code. -/
theorem foldl_id_origin (obsT : List String) :
    ∀ l : List OBSmeta, ∀ m ∈ obsT.foldl addObsType l,
      m.id ∈ l.map OBSmeta.id ∨ m.id ∈ obsT := by
  induction obsT with
  | nil =>
      intro l m hm
      rw [List.foldl_nil] at hm
      exact Or.inl (List.mem_map_of_mem _ hm)
  | cons c rest ih =>
      intro l m hm
      rw [List.foldl_cons] at hm
      rcases ih (addObsType l c) m hm with h | h
      · rw [addObsType_ids] at h
        by_cases hc : c ∈ l.map OBSmeta.id
        · rw [if_pos hc] at h
          exact Or.inl h
        · rw [if_neg hc] at h
          rcases List.mem_append.mp h with h2 | h2
          · exact Or.inl h2
          · exact Or.inr (by simp at h2; simp [h2])
      · exact Or.inr (List.mem_cons_of_mem _ h)

/-- One overlay step never removes a code. -/
theorem addObsType_ids_mono (l : List OBSmeta) (c x : String)
    (hx : x ∈ l.map OBSmeta.id) : x ∈ (addObsType l c).map OBSmeta.id := by
  rw [addObsType_ids]
  by_cases hc : c ∈ l.map OBSmeta.id
  · simpa [hc] using hx
  · rw [if_neg hc]
    exact List.mem_append.mpr (Or.inl hx)

/-- Overlaying a request list never removes a code. -/
theorem foldl_ids_mono (obsT : List String) :
    ∀ (l : List OBSmeta) (x : String), x ∈ l.map OBSmeta.id →
      x ∈ (obsT.foldl addObsType l).map OBSmeta.id := by
  induction obsT with
  | nil =>
      intro l x hx
      simpa using hx
  | cons c rest ih =>
      intro l x hx
      rw [List.foldl_cons]
      exact ih _ x (addObsType_ids_mono l c x hx)

/-- Overlaying a request list preserves the uniqueness of codes. -/
theorem foldl_ids_nodup (obsT : List String) :
    ∀ l : List OBSmeta, (l.map OBSmeta.id).Nodup →
      ((obsT.foldl addObsType l).map OBSmeta.id).Nodup := by
  induction obsT with
  | nil =>
      intro l h
      simpa using h
  | cons c rest ih =>
      intro l h
      rw [List.foldl_cons]
      exact ih _ (addObsType_ids_nodup l c h)

/-- The default observable set has exactly the v3obsTypes codes. -/
theorem defaultObsTypes_ids : defaultObsTypes.map OBSmeta.id = v3obsTypes := by
  decide

/-- Claim C6: a newly created GNSS system starts from the default
observable catalog with unique codes; exactly the requested codes end up
selected; every default code is present; and every present code is a
default code or a requested one (codes unknown to the default set are the
appended requested codes, which are selected like every requested code). -/
theorem mkGNSSsystem_observable_catalog (sysId : Char) (obsT : List String) :
    ((mkGNSSsystem sysId obsT).obsTypes.map OBSmeta.id).Nodup
    ∧ (∀ m ∈ (mkGNSSsystem sysId obsT).obsTypes, (m.sel = true ↔ m.id ∈ obsT))
    ∧ (∀ c ∈ v3obsTypes, c ∈ (mkGNSSsystem sysId obsT).obsTypes.map OBSmeta.id)
    ∧ ∀ m ∈ (mkGNSSsystem sysId obsT).obsTypes,
        m.id ∈ v3obsTypes ∨ m.id ∈ obsT := by
  have hnd : (defaultObsTypes.map OBSmeta.id).Nodup := by
    rw [defaultObsTypes_ids]
    decide
  have hinit : ∀ m ∈ defaultObsTypes, (m.sel = true ↔ m.id ∈ ([] : List String)) := by
    intro m hm
    rw [defaultObsTypes] at hm
    obtain ⟨c, _, he⟩ := List.mem_map.mp hm
    rw [← he]
    simp
  refine ⟨?_, ?_, ?_, ?_⟩
  · exact foldl_ids_nodup obsT defaultObsTypes hnd
  · intro m hm
    have := foldl_sel_iff obsT defaultObsTypes [] hnd hinit m hm
    simpa using this
  · intro c hc
    exact foldl_ids_mono obsT defaultObsTypes c (by rwa [defaultObsTypes_ids])
  · intro m hm
    rcases foldl_id_origin obsT defaultObsTypes m hm with h | h
    · exact Or.inl (by rwa [defaultObsTypes_ids] at h)
    · exact Or.inr h

/-- Claim C6 witness: creating a GPS system with requested codes C1C and
the code X9X, unknown to the default set, yields unique codes and a
selected C1C entry. -/
theorem mkGNSSsystem_observable_catalog_witness :
    ((mkGNSSsystem 'G' ["C1C", "X9X"]).obsTypes.map OBSmeta.id).Nodup
    ∧ (OBSmeta.mk "C1C" true false).sel = true :=
  ⟨(mkGNSSsystem_observable_catalog 'G' ["C1C", "X9X"]).1,
   ((mkGNSSsystem_observable_catalog 'G' ["C1C", "X9X"]).2.1
      (OBSmeta.mk "C1C" true false) (by decide)).mpr (by decide)⟩

end Rinex
